import Mathlib

/-!
Verification development for the SpennX Purse Engine core:
currency normalization (app/currency_rates.py), cache synchronization
(app/transaction_sync.py), and time-windowed aggregation
(app/main.py, app/reports.py, app/formatters.py).

Modelling conventions:
* Python `Decimal` values are modelled as exact rationals (`ℚ`); the source
  states that all money arithmetic uses arbitrary-precision decimals.
* Python `float` intermediates in the report deltas are likewise modelled as
  exact rationals.
* Nullable Python values are modelled as `Option`; Python truthiness on a
  string is `s ≠ ""`, on a number `x ≠ 0`, and `None` is falsy.
* Timestamps are modelled as integers (`ℤ`) with the usual order; only their
  order and equality matter to the verified claims.
-/

/-! ## app/currency_rates.py -/

/-- The static table `CURRENCY_RATES` ("1 USD = X currency"), with every
decimal literal carried exactly. -/
def CURRENCY_RATES : List (String × ℚ) :=
  [ ("USD", 1),
    ("NGN", 14336190917516 / 10000000000),
    ("KES", 12530281513658 / 100000000000),
    ("TZS", 2450495049505 / 1000000000),
    ("EUR", 83262260443543 / 100000000000000),
    ("GBP", 72138541150152 / 100000000000000),
    ("RWF", 14208214931542 / 10000000000),
    ("UGX", 34577905067933 / 10000000000),
    ("NOK", 97708691701344 / 10000000000000),
    ("AED", 36725 / 10000),
    ("PHP", 5944767954 / 100000000),
    ("CAD", 13452372791339 / 10000000000000),
    ("XAF", 5711219951195 / 10000000000) ]

/-- Python `str.upper()` (ASCII range), spelled over the character list so
that it evaluates by kernel reduction. -/
def pyUpper (s : String) : String :=
  String.mk (s.data.map Char.toUpper)

/-- `get_usd_rate`: rate converting one unit of `currency_code` to USD. -/
def get_usd_rate (currency_code : String) : ℚ :=
  if currency_code = "" then 1
  else
    let c := pyUpper currency_code
    if c = "USD" then 1
    else
      match CURRENCY_RATES.lookup c with
      | some k => 1 / k
      | none => 1

/-- `currency_code.upper() if currency_code else "USD"` (line 68 of
`convert_to_usd`). -/
def normCurrency (currency_code : Option String) : String :=
  match currency_code with
  | some s => if s = "" then "USD" else pyUpper s
  | none => "USD"

/-- `convert_to_usd(amount, currency_code, rate_from_json)`.  The Python
guard `if not amount` is falsy exactly on `None` and `0`. -/
def convert_to_usd (amount : Option ℚ) (currency_code : Option String)
    (rate_from_json : Option ℚ) : ℚ :=
  match amount with
  | none => 0
  | some a =>
    if a = 0 then 0
    else
      let c := normCurrency currency_code
      if c = "USD" then a
      else
        match rate_from_json with
        | some r =>
          if r ≠ 0 ∧ 0 < r then
            match CURRENCY_RATES.lookup c with
            | some known_rate =>
              if |r - known_rate| < known_rate * (1 / 2) ∨
                 |1 / r - known_rate| < known_rate * (1 / 2) then
                (if 10 < r then a / r else a * r)
              else a * get_usd_rate c
            | none => (if 10 < r then a / r else a * r)
          else a * get_usd_rate c
        | none => a * get_usd_rate c

/-! ## app/formatters.py -/

/-- `round_decimal(value, places)`: quantize with `ROUND_HALF_UP`
(ties away from zero).  The `value is None` guard is irrelevant here because
every modelled call site passes a proper decimal. -/
def round_decimal (value : ℚ) (places : ℕ) : ℚ :=
  let scale : ℚ := (10 : ℚ) ^ places
  let n : ℤ := if 0 ≤ value then ⌊value * scale + 1 / 2⌋ else -⌊-value * scale + 1 / 2⌋
  (n : ℚ) / scale

/-- Fuel-driven comma grouping of a reversed digit list (fuel is the list
length, so it never runs out); inserts `,` after every third digit. -/
def commaGroupAux : ℕ → List Char → List Char
  | 0, ds => ds
  | fuel + 1, ds =>
    if ds.length ≤ 3 then ds
    else ds.take 3 ++ ',' :: commaGroupAux fuel (ds.drop 3)

/-- Comma-group a reversed digit list. -/
def commaGroup (ds : List Char) : List Char :=
  commaGroupAux ds.length ds

/-- `format_currency(value)`: round to 2 places half-up, then render as
Python `f"{rounded:,.2f}"` — thousands separators and exactly two decimal
digits.  (`Decimal("-0.00")`'s negative zero sign is not modelled; no claim
touches it.) -/
def format_currency (value : ℚ) : String :=
  let rounded := round_decimal value 2
  let cents : ℤ := ⌊rounded * 100⌋
  let m : ℕ := cents.natAbs
  let ip : ℕ := m / 100
  let fp : ℕ := m % 100
  let grouped := (commaGroup (Nat.repr ip).data.reverse).reverse
  let fpStr := (if fp < 10 then "0" else "") ++ Nat.repr fp
  (if cents < 0 then "-" else "") ++ String.mk grouped ++ "." ++ fpStr

/-- Python `round(x, 2)` on floats, modelled as exact round-half-to-even at
two decimal places. -/
def pyRound2 (x : ℚ) : ℚ :=
  let y := x * 100
  let f : ℤ := ⌊y⌋
  let r := y - (f : ℚ)
  let n : ℤ :=
    if r < 1 / 2 then f
    else if 1 / 2 < r then f + 1
    else if 2 ∣ f then f else f + 1
  (n : ℚ) / 100

/-- `format_percentage(value)`: `round(value, 2)`. -/
def format_percentage (value : ℚ) : ℚ :=
  pyRound2 value

/-! ## Python list sorting

`list.sort(key=k, reverse=True)` is a stable descending sort: an element
precedes another exactly when its key is strictly greater, or the keys tie
and it appeared first.  Insertion sort inserting each element before the
first element whose key is `≤` its own implements exactly that order. -/

/-- Python string `<=`: lexicographic comparison of code points. -/
def pyListLe : List Char → List Char → Bool
  | [], _ => true
  | _ :: _, [] => false
  | a :: as, b :: bs => if a < b then true else if b < a then false else pyListLe as bs

/-- Python `s <= t` on strings. -/
def pyStrLe (s t : String) : Bool :=
  pyListLe s.data t.data

/-- `list.sort(key=key, reverse=True)` with a decimal key. -/
def pySortDescByQ {α : Type} (key : α → ℚ) (l : List α) : List α :=
  List.insertionSort (fun u v => key v ≤ key u) l

/-- `list.sort(key=key, reverse=True)` with a string key (the comparison
Python actually performs is string comparison). -/
def pySortDescByStr {α : Type} (key : α → String) (l : List α) : List α :=
  List.insertionSort (fun u v => pyStrLe (key v) (key u) = true) l

/-! ## Aggregation data model

A cached transaction row as the aggregation queries read it.  The
`rate_hint` field models the outcome of the recipient-JSON `rate`
extraction performed at every aggregation site (`None` when the recipient
is absent, not a dict, has no `rate` key, a falsy `rate`, or an unparsable
one — the `try/except` collapses all of those to `None`). -/
structure AggRow where
  status : Option String
  human_readable_amount : Option ℚ
  human_readable_charge : Option ℚ
  currency : Option String
  created_at : Option ℤ
  rate_hint : Option ℚ
deriving DecidableEq

/-- SQL window filter `created_at >= start AND created_at <= end`; a NULL
`created_at` satisfies neither comparison. -/
def inWindow (start_t end_t : ℤ) (t : AggRow) : Bool :=
  match t.created_at with
  | some ts => decide (start_t ≤ ts) && decide (ts ≤ end_t)
  | none => false

/-- Python `v or Decimal(0)` on an optional decimal: `None` and `0` are
falsy and give `0`; since falsy `0` maps to `0` anyway, this is `getD 0`. -/
def orZeroQ (x : Option ℚ) : ℚ :=
  x.getD 0

/-- Python `c or "USD"` on an optional string (`None` and `""` are falsy). -/
def orUSD (c : Option String) : String :=
  match c with
  | some s => if s = "" then "USD" else s
  | none => "USD"

/-- The response model `PeriodStats` (app/schemas.py). -/
structure PeriodStats where
  period_name : String
  start_date : ℤ
  end_date : ℤ
  total_transactions : ℕ
  total_volume : String
  total_revenue : String
  avg_transaction_amount : String
  avg_revenue_per_transaction : String
  error_rate : ℚ
deriving DecidableEq

/-- `calculate_period_stats(db, start, end, period_name)` (app/main.py). -/
def calculate_period_stats (db : List AggRow) (start_t end_t : ℤ)
    (period_name : String) : PeriodStats :=
  let base := db.filter (fun t => inWindow start_t end_t t)
  let succ := base.filter (fun t => t.status == some "success")
  let total_transactions := base.length
  let success_count := succ.length
  let total_volume_usd :=
    (succ.map (fun t => convert_to_usd (some (orZeroQ t.human_readable_amount))
      (some (orUSD t.currency)) t.rate_hint)).sum
  let total_revenue_usd :=
    (succ.map (fun t => convert_to_usd (some (orZeroQ t.human_readable_charge))
      (some (orUSD t.currency)) t.rate_hint)).sum
  let avg_amount := if success_count > 0 then total_volume_usd / (success_count : ℚ) else 0
  let avg_revenue := if success_count > 0 then total_revenue_usd / (success_count : ℚ) else 0
  let error_count := (base.filter (fun t =>
    t.status == some "failed" || t.status == some "declined" ||
      t.status == some "reversed")).length
  let error_rate :=
    if total_transactions > 0 then (error_count : ℚ) / (total_transactions : ℚ) * 100 else 0
  { period_name := period_name
    start_date := start_t
    end_date := end_t
    total_transactions := success_count
    total_volume := format_currency total_volume_usd
    total_revenue := format_currency total_revenue_usd
    avg_transaction_amount := format_currency avg_amount
    avg_revenue_per_transaction := format_currency avg_revenue
    error_rate := format_percentage error_rate }

/-! ## app/reports.py -/

/-- Loop accumulator of `calculate_week_metrics`; `currency_breakdown` is the
insertion-ordered Python dict, keyed by (defaulted) currency, holding
`(transaction_count, volume_usd)`. -/
structure WeekAcc where
  success_count : ℕ
  failed_count : ℕ
  pending_count : ℕ
  declined_count : ℕ
  reversed_count : ℕ
  processing_swap_count : ℕ
  other_count : ℕ
  total_volume_usd : ℚ
  total_revenue_usd : ℚ
  currency_breakdown : List (String × ℕ × ℚ)

/-- Update the insertion-ordered per-currency dict: a new currency is
appended at the end (Python dict insertion order), an existing one is
updated in place. -/
def updateBreakdown (cb : List (String × ℕ × ℚ)) (cur : String) (amt : ℚ) :
    List (String × ℕ × ℚ) :=
  match cb with
  | [] => [(cur, 1, amt)]
  | (c, n, v) :: rest =>
    if c = cur then (c, n + 1, v + amt) :: rest
    else (c, n, v) :: updateBreakdown rest cur amt

/-- One iteration of the `for txn in all_transactions` loop of
`calculate_week_metrics`: the status if/elif chain, then the success-only
volume/revenue/breakdown accumulation. -/
def weekStep (acc : WeekAcc) (txn : AggRow) : WeekAcc :=
  let acc :=
    if txn.status == some "success" then
      { acc with success_count := acc.success_count + 1 }
    else if txn.status == some "failed" then
      { acc with failed_count := acc.failed_count + 1 }
    else if txn.status == some "pending" then
      { acc with pending_count := acc.pending_count + 1 }
    else if txn.status == some "declined" then
      { acc with declined_count := acc.declined_count + 1 }
    else if txn.status == some "reversed" then
      { acc with reversed_count := acc.reversed_count + 1 }
    else if txn.status == some "processing_swap" then
      { acc with processing_swap_count := acc.processing_swap_count + 1 }
    else
      { acc with other_count := acc.other_count + 1 }
  if txn.status == some "success" then
    let amount := orZeroQ txn.human_readable_amount
    let charge := orZeroQ txn.human_readable_charge
    let currency := orUSD txn.currency
    let amount_usd := convert_to_usd (some amount) (some currency) txn.rate_hint
    let charge_usd := convert_to_usd (some charge) (some currency) txn.rate_hint
    { acc with
      total_volume_usd := acc.total_volume_usd + amount_usd
      total_revenue_usd := acc.total_revenue_usd + charge_usd
      currency_breakdown := updateBreakdown acc.currency_breakdown currency amount_usd }
  else acc

/-- One entry of the report's currency-breakdown list.  Python stores
`volume_usd` as `str(Decimal)` and sorts on `Decimal(str)`; the round-trip
is exact, so the value is modelled directly. -/
structure CurrencyEntry where
  currency : String
  transaction_count : ℕ
  volume_usd : ℚ
  percentage : ℚ
deriving DecidableEq

/-- The dictionary returned by `calculate_week_metrics`.  The
`str(Decimal)` fields are modelled by their exact values. -/
structure WeekMetrics where
  total_transactions : ℕ
  success_count : ℕ
  failed_count : ℕ
  pending_count : ℕ
  declined_count : ℕ
  reversed_count : ℕ
  processing_swap_count : ℕ
  other_count : ℕ
  success_percentage : ℚ
  failed_percentage : ℚ
  pending_percentage : ℚ
  declined_percentage : ℚ
  success_rate : ℚ
  total_volume_usd : ℚ
  avg_transaction_size_usd : ℚ
  total_revenue_usd : ℚ
  avg_fee_per_transaction_usd : ℚ
  fees_to_value_ratio : ℚ
  currency_breakdown : List CurrencyEntry
deriving DecidableEq

/-- `calculate_week_metrics(db, start, end)` (app/reports.py). -/
def calculate_week_metrics (db : List AggRow) (start_t end_t : ℤ) : WeekMetrics :=
  let all_transactions := db.filter (fun t => inWindow start_t end_t t)
  let total_transactions := all_transactions.length
  let acc := all_transactions.foldl weekStep
    { success_count := 0, failed_count := 0, pending_count := 0
      declined_count := 0, reversed_count := 0, processing_swap_count := 0
      other_count := 0, total_volume_usd := 0, total_revenue_usd := 0
      currency_breakdown := [] }
  let success_percentage :=
    if total_transactions > 0 then
      (acc.success_count : ℚ) / (total_transactions : ℚ) * 100 else 0
  let failed_percentage :=
    if total_transactions > 0 then
      (acc.failed_count : ℚ) / (total_transactions : ℚ) * 100 else 0
  let pending_percentage :=
    if total_transactions > 0 then
      (acc.pending_count : ℚ) / (total_transactions : ℚ) * 100 else 0
  let declined_percentage :=
    if total_transactions > 0 then
      (acc.declined_count : ℚ) / (total_transactions : ℚ) * 100 else 0
  let avg_transaction_size_usd :=
    if acc.success_count > 0 then acc.total_volume_usd / (acc.success_count : ℚ) else 0
  let avg_fee_per_transaction_usd :=
    if acc.success_count > 0 then acc.total_revenue_usd / (acc.success_count : ℚ) else 0
  let fees_to_value_ratio :=
    if 0 < acc.total_volume_usd then
      acc.total_revenue_usd / acc.total_volume_usd * 100 else 0
  let currency_breakdown_list := acc.currency_breakdown.map (fun p =>
    { currency := p.1
      transaction_count := p.2.1
      volume_usd := p.2.2
      percentage :=
        if 0 < acc.total_volume_usd then p.2.2 / acc.total_volume_usd * 100 else 0
      : CurrencyEntry })
  let sorted := pySortDescByQ (fun e => e.volume_usd) currency_breakdown_list
  { total_transactions := total_transactions
    success_count := acc.success_count
    failed_count := acc.failed_count
    pending_count := acc.pending_count
    declined_count := acc.declined_count
    reversed_count := acc.reversed_count
    processing_swap_count := acc.processing_swap_count
    other_count := acc.other_count
    success_percentage := pyRound2 success_percentage
    failed_percentage := pyRound2 failed_percentage
    pending_percentage := pyRound2 pending_percentage
    declined_percentage := pyRound2 declined_percentage
    success_rate := pyRound2 success_percentage
    total_volume_usd := acc.total_volume_usd
    avg_transaction_size_usd := avg_transaction_size_usd
    total_revenue_usd := acc.total_revenue_usd
    avg_fee_per_transaction_usd := avg_fee_per_transaction_usd
    fees_to_value_ratio := fees_to_value_ratio
    currency_breakdown := sorted.take 5 }

/-- The inner `calculate_change` of `calculate_week_over_week_changes`. -/
def calculate_change (current_val previous_val : ℚ) : ℚ :=
  if previous_val = 0 then (if 0 < current_val then 100 else 0)
  else (current_val - previous_val) / previous_val * 100

/-- The dictionary returned by `calculate_week_over_week_changes`. -/
structure WowChanges where
  transaction_volume_change_pct : ℚ
  transaction_volume_change_absolute : ℤ
  success_rate_change_pct : ℚ
  revenue_change_pct : ℚ
  revenue_change_absolute_usd : ℚ
  avg_transaction_size_change_pct : ℚ
deriving DecidableEq

/-- `calculate_week_over_week_changes(current, previous)` (app/reports.py).
The `Decimal → float` conversions are modelled as exact. -/
def calculate_week_over_week_changes (current previous : WeekMetrics) : WowChanges :=
  { transaction_volume_change_pct :=
      pyRound2 (calculate_change (current.total_transactions : ℚ)
        (previous.total_transactions : ℚ))
    transaction_volume_change_absolute :=
      (current.total_transactions : ℤ) - (previous.total_transactions : ℤ)
    success_rate_change_pct :=
      pyRound2 (current.success_rate - previous.success_rate)
    revenue_change_pct :=
      pyRound2 (calculate_change current.total_revenue_usd previous.total_revenue_usd)
    revenue_change_absolute_usd :=
      current.total_revenue_usd - previous.total_revenue_usd
    avg_transaction_size_change_pct :=
      pyRound2 (calculate_change current.avg_transaction_size_usd
        previous.avg_transaction_size_usd) }

/-! ## app/main.py: currency breakdown endpoint -/

/-- Per-currency accumulator of `get_currency_breakdown`. -/
structure CurrencyData where
  count : ℕ
  total_volume : ℚ
  total_volume_usd : ℚ

/-- The response model `CurrencyVolumeBreakdown` (app/schemas.py): the three
volume fields are `format_currency` strings. -/
structure CurrencyVolumeBreakdown where
  currency : String
  transaction_count : ℕ
  total_volume : String
  total_volume_usd : String
  avg_transaction_size : String
  percentage_of_total : ℚ
deriving DecidableEq

/-- Update the insertion-ordered `currency_data` dict of
`get_currency_breakdown`. -/
def updateCurrencyData (cd : List (String × CurrencyData)) (cur : String)
    (amt amtUsd : ℚ) : List (String × CurrencyData) :=
  match cd with
  | [] => [(cur, { count := 1, total_volume := amt, total_volume_usd := amtUsd })]
  | (c, d) :: rest =>
    if c = cur then
      (c, { count := d.count + 1, total_volume := d.total_volume + amt
            total_volume_usd := d.total_volume_usd + amtUsd }) :: rest
    else (c, d) :: updateCurrencyData rest cur amt amtUsd

/-- `get_currency_breakdown` (app/main.py): status filter (default
`"success"`, an empty status string is falsy), optional window bounds
(modelled post-date-parsing), per-currency totals in insertion order, then
`result.sort(key=lambda x: x.total_volume_usd, reverse=True)` — sorting on
the *formatted string* field. -/
def get_currency_breakdown (db : List AggRow) (status_q : Option String)
    (start_q end_q : Option ℤ) : List CurrencyVolumeBreakdown :=
  let statusFilter : String :=
    match status_q with
    | some s => if s = "" then "success" else s
    | none => "success"
  let q1 := db.filter (fun t => t.status == some statusFilter)
  let q2 : List AggRow :=
    match start_q with
    | some s => q1.filter (fun t =>
        match t.created_at with
        | some ts => decide (s ≤ ts)
        | none => false)
    | none => q1
  let q3 : List AggRow :=
    match end_q with
    | some e => q2.filter (fun t =>
        match t.created_at with
        | some ts => decide (ts ≤ e)
        | none => false)
    | none => q2
  let step : List (String × CurrencyData) × ℚ → AggRow → List (String × CurrencyData) × ℚ :=
    fun st txn =>
    let currency := orUSD txn.currency
    let amount := orZeroQ txn.human_readable_amount
    let amount_usd := convert_to_usd (some amount) (some currency) txn.rate_hint
    (updateCurrencyData st.1 currency amount amount_usd, st.2 + amount_usd)
  let res : List (String × CurrencyData) × ℚ := q3.foldl step ([], 0)
  let result := res.1.map (fun p =>
    let avg := if p.2.count > 0 then p.2.total_volume / (p.2.count : ℚ) else 0
    let pct := if 0 < res.2 then p.2.total_volume_usd / res.2 * 100 else 0
    { currency := p.1
      transaction_count := p.2.count
      total_volume := format_currency p.2.total_volume
      total_volume_usd := format_currency p.2.total_volume_usd
      avg_transaction_size := format_currency avg
      percentage_of_total := format_percentage pct
      : CurrencyVolumeBreakdown })
  pySortDescByStr (fun e => e.total_volume_usd) result

/-! ## app/transaction_sync.py: cache merge

`sync_to_database` issues one MySQL `INSERT ... ON DUPLICATE KEY UPDATE`
per record.  The per-statement affected-rows count, per the MySQL manual,
is 1 when the row is inserted, 2 when an existing row is changed, and 0
when an existing row is set to its current values (1 instead of 0 when the
client connects with `CLIENT_FOUND_ROWS`, as SQLAlchemy's MySQL dialects
do); the model is parametric in that flag.  The table DDL generated from
app/models.py gives `cached_at` and `updated_at` a `CURRENT_TIMESTAMP`
insert default and no `ON UPDATE` clause (SQLAlchemy's Python-side
`onupdate` is not rendered into DDL and is not added to
`on_duplicate_key_update` column lists), so neither column changes on a
duplicate-key update.  ISO-timestamp parsing is passed in as a function
`parse`; a parse failure yields `none` for that field only. -/

/-- One raw upstream record as `txn_data.get(...)` reads it: every field
optional; `created_at` is the raw wire string, `recipient` an opaque JSON
blob. -/
structure TxnPayload where
  id : Option String
  amount : Option ℤ
  human_readable_amount : Option ℚ
  charge : Option ℤ
  human_readable_charge : Option ℚ
  status : Option String
  decline_reason : Option String
  mode : Option String
  type : Option String
  description : Option String
  external_id : Option String
  currency : Option String
  created_at : Option String
  recipient : Option String
  from_wallet : Option String
  to_wallet : Option String
  debit_id : Option String
  credit_id : Option String
  rate : Option ℚ
deriving DecidableEq

/-- The `txn_dict` built per record: the payload with `created_at` parsed
(`None` if the string is missing, empty, or fails to parse). -/
structure RowVals where
  id : Option String
  amount : Option ℤ
  human_readable_amount : Option ℚ
  charge : Option ℤ
  human_readable_charge : Option ℚ
  status : Option String
  decline_reason : Option String
  mode : Option String
  type : Option String
  description : Option String
  external_id : Option String
  currency : Option String
  created_at : Option ℤ
  recipient : Option String
  from_wallet : Option String
  to_wallet : Option String
  debit_id : Option String
  credit_id : Option String
  rate : Option ℚ
deriving DecidableEq

/-- Build the `txn_dict` from a payload (`datetime.fromisoformat` modelled
by the `parse` parameter; the `if created_at_str` truthiness guard skips
empty strings). -/
def toRowVals (parse : String → Option ℤ) (p : TxnPayload) : RowVals :=
  { id := p.id
    amount := p.amount
    human_readable_amount := p.human_readable_amount
    charge := p.charge
    human_readable_charge := p.human_readable_charge
    status := p.status
    decline_reason := p.decline_reason
    mode := p.mode
    type := p.type
    description := p.description
    external_id := p.external_id
    currency := p.currency
    created_at :=
      match p.created_at with
      | some s => if s = "" then none else parse s
      | none => none
    recipient := p.recipient
    from_wallet := p.from_wallet
    to_wallet := p.to_wallet
    debit_id := p.debit_id
    credit_id := p.credit_id
    rate := p.rate }

/-- A stored cache row: the column values plus the two local timestamp
columns. -/
structure CacheRow where
  vals : RowVals
  cached_at : ℤ
  updated_at : ℤ
deriving DecidableEq

/-- The `ON DUPLICATE KEY UPDATE` clause assigns every column of `txn_dict`
except `id`; MySQL reports the row unchanged exactly when every assigned
column already holds the assigned value. -/
def sameMutable (n c : RowVals) : Prop :=
  n.amount = c.amount ∧ n.human_readable_amount = c.human_readable_amount ∧
  n.charge = c.charge ∧ n.human_readable_charge = c.human_readable_charge ∧
  n.status = c.status ∧ n.decline_reason = c.decline_reason ∧
  n.mode = c.mode ∧ n.type = c.type ∧ n.description = c.description ∧
  n.external_id = c.external_id ∧ n.currency = c.currency ∧
  n.created_at = c.created_at ∧ n.recipient = c.recipient ∧
  n.from_wallet = c.from_wallet ∧ n.to_wallet = c.to_wallet ∧
  n.debit_id = c.debit_id ∧ n.credit_id = c.credit_id ∧ n.rate = c.rate

instance (n c : RowVals) : Decidable (sameMutable n c) := by
  unfold sameMutable
  infer_instance

/-- One `INSERT ... ON DUPLICATE KEY UPDATE` execution: returns the new
store and the statement's affected-rows count.  `found_rows` selects the
`CLIENT_FOUND_ROWS` reporting of the no-change case. -/
def upsertOne (found_rows : Bool) (now : ℤ) (store : List CacheRow)
    (v : RowVals) : List CacheRow × ℕ :=
  match store.find? (fun rrow => rrow.vals.id == v.id) with
  | none =>
    (store ++ [{ vals := v, cached_at := now, updated_at := now }], 1)
  | some rrow =>
    if sameMutable v rrow.vals then
      (store, if found_rows then 1 else 0)
    else
      (store.map (fun s =>
        if s.vals.id == v.id then
          { vals := { v with id := s.vals.id }, cached_at := s.cached_at
            updated_at := s.updated_at }
        else s), 2)

/-- The `inserted`/`updated`/`total` summary of `sync_to_database`. -/
structure SyncCounts where
  inserted : ℕ
  updated : ℕ
  total : ℕ
deriving DecidableEq

/-- `sync_to_database(transactions, db)`: per record, build `txn_dict`,
upsert, and count `rowcount == 1` as inserted and `rowcount == 2` as
updated (anything else counts as neither). -/
def sync_to_database (found_rows : Bool) (parse : String → Option ℤ)
    (now : ℤ) (transactions : List TxnPayload) (store : List CacheRow) :
    List CacheRow × SyncCounts :=
  let step := fun (st : List CacheRow × ℕ × ℕ) (p : TxnPayload) =>
    let v := toRowVals parse p
    let r := upsertOne found_rows now st.1 v
    if r.2 = 1 then (r.1, st.2.1 + 1, st.2.2)
    else if r.2 = 2 then (r.1, st.2.1, st.2.2 + 1)
    else (r.1, st.2.1, st.2.2)
  let res := transactions.foldl step (store, 0, 0)
  (res.1, { inserted := res.2.1, updated := res.2.2, total := transactions.length })

/-! ## app/transaction_sync.py: pagination -/

/-- The `meta` object of an upstream page response (either pagination field
may be missing). -/
structure PageMeta where
  current_page : Option ℕ
  last_page : Option ℕ

/-- One upstream page response: `data` records (opaque) and an optional
`meta`. -/
structure PageResponse (α : Type) where
  data : List α
  meta : Option PageMeta

/-- `meta.get("current_page", current_page)` with `meta.get("meta", {})`
defaulting. -/
def reportedCurrent {α : Type} (resp : PageResponse α) (page : ℕ) : ℕ :=
  match resp.meta with
  | some m => m.current_page.getD page
  | none => page

/-- `meta.get("last_page", current_page)` — the default is the (possibly
overridden) current page. -/
def reportedLast {α : Type} (resp : PageResponse α) (page : ℕ) : ℕ :=
  match resp.meta with
  | some m => m.last_page.getD (reportedCurrent resp page)
  | none => reportedCurrent resp page

/-- The `break` condition of the fetch loop at a requested page:
`current_page >= last_page` after both defaults. -/
def stopCond {α : Type} (responses : ℕ → PageResponse α) (page : ℕ) : Prop :=
  reportedLast (responses page) page ≤ reportedCurrent (responses page) page

instance {α : Type} (responses : ℕ → PageResponse α) (page : ℕ) :
    Decidable (stopCond responses page) := by
  unfold stopCond
  infer_instance

/-- The page the loop requests after requesting `page` without stopping:
`current_page += 1` applied to the reported current page. -/
def nextPage {α : Type} (responses : ℕ → PageResponse α) (page : ℕ) : ℕ :=
  reportedCurrent (responses page) page + 1

/-- The page requested `k` iterations after starting from `p` (the loop
starts at `p = 1`). -/
def pageIter {α : Type} (responses : ℕ → PageResponse α) : ℕ → ℕ → ℕ
  | 0, p => p
  | k + 1, p => pageIter responses k (nextPage responses p)

/-- `fetch_all_pages`, with explicit fuel standing for the number of loop
iterations still allowed: `none` models non-termination within the given
fuel, `some` the returned concatenation of all fetched `data` lists. -/
def fetch_all_pages (responses : ℕ → PageResponse α) :
    ℕ → ℕ → List α → Option (List α)
  | 0, _, _ => none
  | fuel + 1, page, acc =>
    let resp := responses page
    let acc2 := acc ++ resp.data
    let cur := reportedCurrent resp page
    let last := reportedLast resp page
    if last ≤ cur then some acc2
    else fetch_all_pages responses fuel (cur + 1) acc2

/-- A concrete upstream server for the pagination scenario: every page
reports itself as current with `last_page = 2`. -/
def exampleResponses : ℕ → PageResponse ℕ :=
  fun p => { data := [p], meta := some { current_page := some p, last_page := some 2 } }

/-- A cached success transaction of 9 USD (for the breakdown scenario). -/
def rowUSD : AggRow :=
  { status := some "success", human_readable_amount := some 9
    human_readable_charge := none, currency := some "USD"
    created_at := some 0, rate_hint := none }

/-- A cached success transaction of 100 units of the unknown currency
`"ZZZ"` (parity fallback: 100 USD). -/
def rowZZZ : AggRow :=
  { status := some "success", human_readable_amount := some 100
    human_readable_charge := none, currency := some "ZZZ"
    created_at := some 0, rate_hint := none }

/-! ## Concrete sync scenario data -/

/-- A concrete timestamp parser for the merge scenarios: the upstream wire
strings `"A"` and `"B"` parse to distinct instants, everything else fails
to parse. -/
def exampleParse : String → Option ℤ :=
  fun s => if s = "A" then some 100 else if s = "B" then some 200 else none

/-- A concrete upstream record. -/
def payA : TxnPayload :=
  { id := some "t1"
    amount := some 100
    human_readable_amount := some 5
    charge := some 2
    human_readable_charge := some 1
    status := some "success"
    decline_reason := none
    mode := some "live"
    type := some "credit"
    description := some "first"
    external_id := none
    currency := some "USD"
    created_at := some "A"
    recipient := none
    from_wallet := none
    to_wallet := none
    debit_id := none
    credit_id := none
    rate := none }

/-- The same record re-sent with a different upstream `created_at`. -/
def payB : TxnPayload :=
  { payA with created_at := some "B" }

/-- Every key of the static table is a nonempty all-uppercase literal, hence
fixed by `pyUpper`. -/
theorem lookup_key_fixed (x : String) (k : ℚ)
    (h : CURRENCY_RATES.lookup x = some k) : x ≠ "" ∧ pyUpper x = x := by
  simp only [CURRENCY_RATES, List.lookup] at h
  repeat' split at h
  all_goals
    first
    | (rename_i hx
       have hx' : x = _ := eq_of_beq hx
       subst hx'
       exact ⟨by decide, by decide⟩)
    | exact Option.noConfusion h

/-- Bridge from boolean string equality to its decidable propositional form,
so that `simp` can evaluate table lookups on literals. -/
theorem string_beq_eq_decide (a b : String) : (a == b) = decide (a = b) := by
  by_cases h : a = b <;> simp [h]

/-- Unfolding of `convert_to_usd` once the `not amount` guard is known to
fail. -/
theorem convert_pos_eq (c : Option String) (r : Option ℚ) (a : ℚ) (ha : a ≠ 0) :
    convert_to_usd (some a) c r =
      if normCurrency c = "USD" then a
      else
        match r with
        | some rv =>
          if rv ≠ 0 ∧ 0 < rv then
            match CURRENCY_RATES.lookup (normCurrency c) with
            | some known_rate =>
              if |rv - known_rate| < known_rate * (1 / 2) ∨
                 |1 / rv - known_rate| < known_rate * (1 / 2) then
                (if 10 < rv then a / rv else a * rv)
              else a * get_usd_rate (normCurrency c)
            | none => (if 10 < rv then a / rv else a * rv)
          else a * get_usd_rate (normCurrency c)
        | none => a * get_usd_rate (normCurrency c) := by
  simp only [convert_to_usd]
  rw [if_neg ha]

/-- When a currency key is in the static table and differs from `"USD"`,
`get_usd_rate` returns the reciprocal of the tabled rate. -/
theorem get_usd_rate_of_lookup (x : String) (k : ℚ) (hx : x ≠ "USD")
    (h : CURRENCY_RATES.lookup x = some k) : get_usd_rate x = 1 / k := by
  obtain ⟨hne, hfix⟩ := lookup_key_fixed x k h
  simp only [get_usd_rate]
  rw [if_neg hne, hfix, if_neg hx, h]

/-! ## Claim theorems: currency normalizer -/

/-- C1: for positive amount and positive hint on a non-USD currency, the hint
is trusted exactly when it is within 50% of the tabled rate in either
direction; a trusted hint yields `amount / hint` when `hint > 10` and
`amount * hint` otherwise; an untrusted hint on a tabled currency falls back
to `amount * (1 / K)`; for a currency outside the table the hint is always
used. -/
theorem C1_rate_hint_policy (a h : ℚ) (c : String)
    (ha : 0 < a) (hh : 0 < h) (hc : normCurrency (some c) ≠ "USD") :
    (∀ K, CURRENCY_RATES.lookup (normCurrency (some c)) = some K →
      ((|h - K| < K * (1 / 2) ∨ |1 / h - K| < K * (1 / 2)) →
          convert_to_usd (some a) (some c) (some h)
            = (if 10 < h then a / h else a * h)) ∧
      (¬(|h - K| < K * (1 / 2) ∨ |1 / h - K| < K * (1 / 2)) →
          convert_to_usd (some a) (some c) (some h) = a * (1 / K))) ∧
    (CURRENCY_RATES.lookup (normCurrency (some c)) = none →
      convert_to_usd (some a) (some c) (some h)
        = (if 10 < h then a / h else a * h)) := by
  have hcond : h ≠ 0 ∧ 0 < h := ⟨ne_of_gt hh, hh⟩
  rw [convert_pos_eq _ _ _ (ne_of_gt ha)]
  rw [if_neg hc]
  constructor
  · intro K hK
    rw [hK]
    dsimp only
    rw [if_pos hcond]
    constructor
    · intro ht
      rw [if_pos ht]
    · intro ht
      rw [if_neg ht, get_usd_rate_of_lookup _ _ hc hK]
  · intro hK
    rw [hK]
    dsimp only
    rw [if_pos hcond]

/-- C1 witness: the spec's own XAF example — hint 2.515 matches neither
direction of the tabled rate 571.1219951195, so the static fallback is
used. -/
theorem C1_witness :
    convert_to_usd (some 100) (some "XAF") (some (2515 / 1000))
      = 100 * (1 / (5711219951195 / 10000000000)) := by
  have h := C1_rate_hint_policy 100 (2515 / 1000) "XAF" (by norm_num)
    (by norm_num) (by decide)
  have h2 := (h.1 (5711219951195 / 10000000000) (by rfl)).2
  refine h2 ?_
  intro hor
  rcases hor with habs | habs <;>
    (rw [abs_of_neg (by norm_num)] at habs; norm_num at habs)

/-- C5 counterexample: a negative amount is not mapped to 0 — the Python
guard `if not amount` only catches `None` and `0`, so
`toUSD(-5, "USD", null) = -5`. -/
theorem C5_counterexample :
    ¬ (convert_to_usd (some (-5)) (some "USD") none = 0) := by
  norm_num +decide [convert_to_usd, normCurrency,
    show pyUpper "USD" = "USD" from rfl]

/-- C5 amended: `toUSD` returns 0 when the amount is absent or exactly 0
(for any currency and any hint); negative amounts are not guarded and are
converted like positive ones. -/
theorem C5_amended_zero_guard (c : Option String) (r : Option ℚ) :
    convert_to_usd none c r = 0 ∧ convert_to_usd (some 0) c r = 0 := by
  constructor
  · rfl
  · simp [convert_to_usd]

/-- C7: converting any positive amount whose currency upper-cases to `"USD"`
is the identity, whatever the hint. -/
theorem C7_usd_identity (x : ℚ) (s : String) (r : Option ℚ)
    (hx : 0 < x) (hs : pyUpper s = "USD") :
    convert_to_usd (some x) (some s) r = x := by
  rw [convert_pos_eq _ _ _ (ne_of_gt hx)]
  have hcu : normCurrency (some s) = "USD" := by
    simp only [normCurrency]
    split <;> simp [hs]
  rw [if_pos hcu]

/-- C7 witness at a lower-case currency code and a junk hint. -/
theorem C7_witness : convert_to_usd (some 5) (some "usd") (some 999) = 5 :=
  C7_usd_identity 5 "usd" (some 999) (by norm_num) (by decide)

/-- C10: for fixed currency and hint, conversion of a positive amount is
multiplication by the fixed factor `convert_to_usd (some 1)`, and conversion
is additive on sums of positive amounts. -/
theorem C10_multiplicative (c : Option String) (r : Option ℚ) (a b : ℚ)
    (ha : 0 < a) (hb : 0 < b) :
    convert_to_usd (some a) c r = a * convert_to_usd (some 1) c r ∧
    convert_to_usd (some (a + b)) c r
      = convert_to_usd (some a) c r + convert_to_usd (some b) c r := by
  have hab : (0 : ℚ) < a + b := by positivity
  rw [convert_pos_eq c r a (ne_of_gt ha), convert_pos_eq c r b (ne_of_gt hb),
    convert_pos_eq c r (a + b) (ne_of_gt hab),
    convert_pos_eq c r 1 one_ne_zero]
  rcases r with _ | rv
  · split_ifs <;> exact ⟨by ring, by ring⟩
  · cases hcl : CURRENCY_RATES.lookup (normCurrency c) <;>
      simp only [hcl] <;> split_ifs <;> exact ⟨by ring, by ring⟩

/-- C10 witness: NGN with no hint, amounts 2 and 3. -/
theorem C10_witness :
    convert_to_usd (some 2) (some "NGN") none
        = 2 * convert_to_usd (some 1) (some "NGN") none ∧
    convert_to_usd (some (2 + 3)) (some "NGN") none
        = convert_to_usd (some 2) (some "NGN") none
          + convert_to_usd (some 3) (some "NGN") none :=
  C10_multiplicative (some "NGN") none 2 3 (by norm_num) (by norm_num)

/-! ## Claim theorems: aggregation -/

/-- C6: the week-over-week change function returns 100 when the previous
value is 0 and the current is positive, 0 when both are 0, and the relative
percentage change when the previous value is nonzero; and the success-rate
comparison is the rounded percentage-point difference of the two weeks'
success rates, not a ratio. -/
theorem C6_week_over_week (cur prev : ℚ) (m1 m2 : WeekMetrics) :
    (prev = 0 → 0 < cur → calculate_change cur prev = 100) ∧
    (prev = 0 → cur = 0 → calculate_change cur prev = 0) ∧
    (prev ≠ 0 → calculate_change cur prev = (cur - prev) / prev * 100) ∧
    (calculate_week_over_week_changes m1 m2).success_rate_change_pct
      = pyRound2 (m1.success_rate - m2.success_rate) := by
  refine ⟨?_, ?_, ?_, rfl⟩
  · intro h0 hpos
    simp [calculate_change, h0, hpos]
  · intro h0 hz
    simp [calculate_change, h0, hz]
  · intro hne
    simp [calculate_change, hne]

/-- C6 witness: the spec's three sample points, plus the success-rate field
on the empty-cache week metrics. -/
theorem C6_witness :
    calculate_change 50 0 = 100 ∧ calculate_change 0 0 = 0 ∧
    calculate_change 150 100 = 50 ∧
    (calculate_week_over_week_changes (calculate_week_metrics [] 0 0)
        (calculate_week_metrics [] 0 0)).success_rate_change_pct
      = pyRound2 ((calculate_week_metrics [] 0 0).success_rate
          - (calculate_week_metrics [] 0 0).success_rate) := by
  have m := calculate_week_metrics [] 0 0
  refine ⟨(C6_week_over_week 50 0 m m).1 rfl (by norm_num),
    (C6_week_over_week 0 0 m m).2.1 rfl rfl, ?_,
    (C6_week_over_week 0 0 (calculate_week_metrics [] 0 0)
      (calculate_week_metrics [] 0 0)).2.2.2⟩
  have h := (C6_week_over_week 150 100 m m).2.2.1 (by norm_num)
  rw [h]
  norm_num

/-- C8: a window matching no cached record yields the all-zero statistics
(`total_transactions = 0`, zero formatted volume/revenue/averages, zero
error rate) — every division is guarded, so nothing is thrown. -/
theorem C8_empty_window (db : List AggRow) (s e : ℤ) (name : String)
    (hempty : db.filter (fun t => inWindow s e t) = []) :
    calculate_period_stats db s e name =
      { period_name := name
        start_date := s
        end_date := e
        total_transactions := 0
        total_volume := "0.00"
        total_revenue := "0.00"
        avg_transaction_amount := "0.00"
        avg_revenue_per_transaction := "0.00"
        error_rate := 0 } := by
  simp only [calculate_period_stats, hempty]
  norm_num [format_currency, round_decimal, format_percentage, pyRound2]
  rfl

/-- C8 witness: one cached record outside the queried window. -/
theorem C8_witness :
    calculate_period_stats
        [{ status := some "success", human_readable_amount := some 5
           human_readable_charge := some 1, currency := some "USD"
           created_at := some 50, rate_hint := none }] 0 10 "Today" =
      { period_name := "Today"
        start_date := 0
        end_date := 10
        total_transactions := 0
        total_volume := "0.00"
        total_revenue := "0.00"
        avg_transaction_amount := "0.00"
        avg_revenue_per_transaction := "0.00"
        error_rate := 0 } :=
  C8_empty_window _ 0 10 "Today" rfl

/-! ## Claim theorems: cache merge -/

/-- C2 evaluation at the failing input: merging `payA` into an empty store
reports `inserted = 1, updated = 0`; merging the identical payload again
reports `updated = 0` (the no-change duplicate-key update affects 0 rows —
or 1, counted as *inserted*, under `CLIENT_FOUND_ROWS` — never the 2 the
code requires to count an update), and the stored row keeps both
`cached_at = 10` and `updated_at = 10` from the first merge, so
`updated_at` does not advance either. -/
theorem C2_identical_remerge (found_rows : Bool) :
    (sync_to_database found_rows exampleParse 10 [payA] []).2.inserted = 1 ∧
    (sync_to_database found_rows exampleParse 10 [payA] []).2.updated = 0 ∧
    (sync_to_database found_rows exampleParse 20 [payA]
        (sync_to_database found_rows exampleParse 10 [payA] []).1).2.updated = 0 ∧
    (sync_to_database found_rows exampleParse 20 [payA]
        (sync_to_database found_rows exampleParse 10 [payA] []).1).2.inserted
      = (if found_rows then 1 else 0) ∧
    (sync_to_database found_rows exampleParse 20 [payA]
        (sync_to_database found_rows exampleParse 10 [payA] []).1).1
      = [{ vals := toRowVals exampleParse payA, cached_at := 10, updated_at := 10 }] := by
  cases found_rows <;>
    exact ⟨rfl, rfl, rfl, rfl, rfl⟩

/-- C2 witness: the evaluation above at `found_rows = false`. -/
theorem C2_witness :
    (sync_to_database false exampleParse 10 [payA] []).2.inserted = 1 ∧
    (sync_to_database false exampleParse 10 [payA] []).2.updated = 0 ∧
    (sync_to_database false exampleParse 20 [payA]
        (sync_to_database false exampleParse 10 [payA] []).1).2.updated = 0 ∧
    (sync_to_database false exampleParse 20 [payA]
        (sync_to_database false exampleParse 10 [payA] []).1).2.inserted
      = (if false then 1 else 0) ∧
    (sync_to_database false exampleParse 20 [payA]
        (sync_to_database false exampleParse 10 [payA] []).1).1
      = [{ vals := toRowVals exampleParse payA, cached_at := 10, updated_at := 10 }] :=
  C2_identical_remerge false

/-- C3 counterexample: re-merging the same `id` with a different upstream
`created_at` overwrites the stored `created_at` (it is in the
on-duplicate update list), so `created_at` is not immutable after first
insert. -/
theorem C3_counterexample :
    ((sync_to_database false exampleParse 10 [payA] []).1.map
        (fun r => r.vals.created_at) = [some 100]) ∧
    ((sync_to_database false exampleParse 20 [payB]
        (sync_to_database false exampleParse 10 [payA] []).1).1.map
          (fun r => r.vals.created_at) = [some 200]) :=
  ⟨rfl, rfl⟩

/-- On the changed-row branch, mapping the store rewrites exactly the
matching row, so `find?` returns it rewritten. -/
theorem find_upsert_map (store : List CacheRow) (v : RowVals) (r : CacheRow)
    (h : store.find? (fun s => s.vals.id == v.id) = some r) :
    (store.map (fun s =>
        if s.vals.id == v.id then
          { vals := { v with id := s.vals.id }, cached_at := s.cached_at
            updated_at := s.updated_at }
        else s)).find? (fun s => s.vals.id == v.id)
      = some { vals := { v with id := r.vals.id }, cached_at := r.cached_at
               updated_at := r.updated_at } := by
  induction store with
  | nil => simp at h
  | cons hd tl ih =>
    by_cases hp : (hd.vals.id == v.id) = true
    · rw [@List.find?_cons_of_pos _ (fun s : CacheRow => s.vals.id == v.id) _ _ hp] at h
      cases h
      simp only [List.map_cons, if_pos hp]
      exact List.find?_cons_of_pos _ hp
    · rw [@List.find?_cons_of_neg _ (fun s : CacheRow => s.vals.id == v.id) _ _ hp] at h
      simp only [List.map_cons, if_neg hp]
      refine (List.find?_cons_of_neg _ ?_).trans (ih h)
      exact hp

/-- C3 amended: re-merging a payload whose `id` is already cached leaves
`id` and `cached_at` unchanged, but `created_at` — like every other
mutable field — is overwritten with the incoming payload's parsed value;
it stays unchanged only when the incoming payload carries the same one. -/
theorem C3_remerge_overwrites_created_at (found_rows : Bool)
    (parse : String → Option ℤ) (now : ℤ) (store : List CacheRow)
    (p : TxnPayload) (r : CacheRow)
    (hfind : store.find? (fun s => s.vals.id == (toRowVals parse p).id) = some r) :
    ∃ r', (sync_to_database found_rows parse now [p] store).1.find?
        (fun s => s.vals.id == (toRowVals parse p).id) = some r' ∧
      r'.cached_at = r.cached_at ∧ r'.vals.id = r.vals.id ∧
      r'.vals.created_at = (toRowVals parse p).created_at := by
  simp only [sync_to_database, List.foldl_cons, List.foldl_nil, upsertOne, hfind]
  by_cases hsm : sameMutable (toRowVals parse p) r.vals
  · rw [if_pos hsm]
    split <;>
      exact ⟨r, hfind, rfl, rfl, (hsm.2.2.2.2.2.2.2.2.2.2.2.1).symm⟩
  · rw [if_neg hsm]
    split <;>
      exact ⟨_, find_upsert_map store (toRowVals parse p) r hfind, rfl, rfl, rfl⟩

/-- C3 amended witness: re-merge `payB` over the store holding `payA`'s
row. -/
theorem C3_amended_witness :
    ∃ r', (sync_to_database false exampleParse 20 [payB]
        [{ vals := toRowVals exampleParse payA, cached_at := 10, updated_at := 10 }]).1.find?
          (fun s => s.vals.id == (toRowVals exampleParse payB).id) = some r' ∧
      r'.cached_at = 10 ∧ r'.vals.id = some "t1" ∧
      r'.vals.created_at = (toRowVals exampleParse payB).created_at :=
  C3_remerge_overwrites_created_at false exampleParse 20 _ payB
    { vals := toRowVals exampleParse payA, cached_at := 10, updated_at := 10 } rfl

/-! ## Claim theorems: pagination -/

/-- If the stop condition holds after `k` further iterations, fuel `k + 1`
suffices for the loop to return. -/
theorem fetch_terminates_aux {α : Type} (responses : ℕ → PageResponse α) :
    ∀ (k p : ℕ) (acc : List α), stopCond responses (pageIter responses k p) →
      ∃ res, fetch_all_pages responses (k + 1) p acc = some res := by
  intro k
  induction k with
  | zero =>
    intro p acc h
    have h' : reportedLast (responses p) p ≤ reportedCurrent (responses p) p := h
    refine ⟨acc ++ (responses p).data, ?_⟩
    simp only [fetch_all_pages]
    rw [if_pos h']
  | succ k ih =>
    intro p acc h
    by_cases hs : stopCond responses p
    · have hs' : reportedLast (responses p) p ≤ reportedCurrent (responses p) p := hs
      refine ⟨acc ++ (responses p).data, ?_⟩
      simp only [fetch_all_pages]
      rw [if_pos hs']
    · have hs' : ¬ (reportedLast (responses p) p ≤ reportedCurrent (responses p) p) := hs
      simp only [fetch_all_pages]
      rw [if_neg hs']
      exact ih (nextPage responses p) (acc ++ (responses p).data) h

/-- C9: the fetch loop terminates whenever some iterate of the requested
page sequence satisfies the reported stop condition
`last_page <= current_page`; and a response whose `meta` is missing is a
final page — its stop condition holds, and the loop returns the
accumulated records plus that page's records in one more step. -/
theorem C9_fetch_terminates {α : Type} (responses : ℕ → PageResponse α)
    (hstop : ∃ k, stopCond responses (pageIter responses k 1)) :
    (∃ fuel res, fetch_all_pages responses fuel 1 [] = some res) ∧
    (∀ p, (responses p).meta = none → stopCond responses p) ∧
    (∀ fuel page (acc : List α), (responses page).meta = none →
        fetch_all_pages responses (fuel + 1) page acc
          = some (acc ++ (responses page).data)) := by
  refine ⟨?_, ?_, ?_⟩
  · obtain ⟨k, hk⟩ := hstop
    obtain ⟨res, hres⟩ := fetch_terminates_aux responses k 1 [] hk
    exact ⟨k + 1, res, hres⟩
  · intro p h
    simp [stopCond, reportedLast, reportedCurrent, h]
  · intro fuel page acc h
    have hlast : reportedLast (responses page) page
        = reportedCurrent (responses page) page := by
      simp [reportedLast, reportedCurrent, h]
    simp only [fetch_all_pages]
    rw [hlast, if_pos (le_refl _)]

/-- C9 witness: a server reporting `last_page = 2` everywhere stops at
page 2; the loop returns, and the missing-meta clauses are inherited. -/
theorem C9_witness :
    (∃ fuel res, fetch_all_pages exampleResponses fuel 1 [] = some res) ∧
    (∀ p, (exampleResponses p).meta = none → stopCond exampleResponses p) ∧
    (∀ fuel page (acc : List ℕ), (exampleResponses page).meta = none →
        fetch_all_pages exampleResponses (fuel + 1) page acc
          = some (acc ++ (exampleResponses page).data)) :=
  C9_fetch_terminates exampleResponses ⟨1, by decide⟩

/-! ## Claim theorems: currency breakdown ordering -/

/-- C4: the weekly report's currency breakdown (sorted on the decimal USD
volume) is genuinely descending — every adjacent pair satisfies
`later ≤ earlier`; but the currency-breakdown endpoint sorts on the
*formatted string* `total_volume_usd`, and on the cache
`[9 USD, 100 ZZZ]` it emits the 9.00-volume entry before the 100.00-volume
entry, because `"9.00" > "100.00"` lexicographically. -/
theorem C4_breakdown_sorting :
    (∀ (db : List AggRow) (s e : ℤ),
        List.Chain' (fun u v => v.volume_usd ≤ u.volume_usd)
          ((calculate_week_metrics db s e).currency_breakdown)) ∧
    ((get_currency_breakdown [rowUSD, rowZZZ] none none none).map
        (fun x => (x.currency, x.total_volume_usd))
      = [("USD", "9.00"), ("ZZZ", "100.00")]) := by
  constructor
  · intro db s e
    have hsorted : ∀ (l : List CurrencyEntry),
        List.Pairwise (fun u v => v.volume_usd ≤ u.volume_usd)
          (pySortDescByQ (fun x => x.volume_usd) l) := by
      intro l
      haveI ht : IsTotal CurrencyEntry (fun u v => v.volume_usd ≤ u.volume_usd) :=
        ⟨fun a b => le_total b.volume_usd a.volume_usd⟩
      haveI htr : IsTrans CurrencyEntry (fun u v => v.volume_usd ≤ u.volume_usd) :=
        ⟨fun _ _ _ hab hbc => le_trans hbc hab⟩
      exact List.sorted_insertionSort _ l
    have key : ∀ (l : List CurrencyEntry),
        List.Chain' (fun u v => v.volume_usd ≤ u.volume_usd)
          ((pySortDescByQ (fun x => x.volume_usd) l).take 5) := by
      intro l
      exact ((hsorted l).sublist (List.take_sublist 5 _)).chain'
    exact key _
  · norm_num +decide [get_currency_breakdown, updateCurrencyData, orUSD, orZeroQ,
      convert_to_usd, normCurrency, get_usd_rate, CURRENCY_RATES, List.lookup,
      string_beq_eq_decide, rowUSD, rowZZZ, pySortDescByStr, pyStrLe, pyListLe,
      format_currency, round_decimal, commaGroup, commaGroupAux,
      show pyUpper "USD" = "USD" from rfl, show pyUpper "ZZZ" = "ZZZ" from rfl]
